import Mathlib

/-!
Shallow embedding of the authentication core of the repository
(`src/auth/auth.service.ts`, `src/mail/mail.service.ts` RedisService,
`src/common/decorators/roles.decorator.ts`, `src/auth/dto`,
`src/auth/auth.controller.ts`).

State is passed explicitly: every service operation has the shape
`SysState → args → Except AuthError α × SysState`, returning the state at
the moment of a throw so that partial writes stay observable.
-/

/-- Application roles, from `src/common/decorators/roles.decorator.ts`. -/
inductive Role
  | SUPER_ADMIN
  | ADMIN
  | MODERATOR
  | USER
  | VIEWER
deriving Repr, DecidableEq

/-- Failure taxonomy. Each constructor records how the TypeScript code
surfaces the failure:
`Conflict` is `BadRequestException("User already exists")`;
`Unauthenticated msg` is `UnauthorizedException(msg)`;
`InvalidOrExpiredCode` is `BadRequestException("Invalid or expired OTP")`;
`NotFound` is Prisma error P2025 (record to update not found);
`UniqueViolation` is Prisma error P2002 (unique constraint failed);
`StoreError` is a transient store/connection failure;
`JwtError` is an exception thrown by `jwtService.verify`. -/
inductive AuthError
  | Conflict
  | Unauthenticated (msg : String)
  | InvalidOrExpiredCode
  | NotFound
  | UniqueViolation
  | StoreError
  | JwtError
deriving Repr, DecidableEq

/-- Abstraction of a bcrypt hash: the salt used and the hashed password.
`bcrypt.hash(pw, salt)` is modelled as the pair, and `bcrypt.compare`
as recomputing the hash; hash collisions are abstracted away. -/
structure BcryptHash where
  salt : Nat
  pw : String
deriving Repr, DecidableEq

/-- Model of `bcrypt.hash(pw, salt)`. -/
def bcryptHash (pw : String) (salt : Nat) : BcryptHash := ⟨salt, pw⟩

/-- Model of `bcrypt.compare(pw, hash)`. -/
def bcryptCompare (pw : String) (h : BcryptHash) : Bool := h.pw == pw

/-- An account row of the `user` table. Field types follow the Prisma model
used by `auth.service.ts` (`password` holds the bcrypt hash). -/
structure User where
  id : Nat
  email : String
  password : BcryptHash
  firstName : Option String
  lastName : Option String
  role : Role
  isVerified : Bool
  verifiedAt : Option Nat
deriving Repr, DecidableEq

/-- Environment-provided configuration consumed by the core:
`OTP_EXPIRY_SECONDS`, the default JWT expiry and `JWT_REFRESH_EXPIRES_IN`. -/
structure AppConfig where
  otpExpirySeconds : Nat
  jwtExpiresIn : String
  jwtRefreshExpiresIn : String
deriving Repr, DecidableEq

/-- One key/value entry of the Redis store, with its absolute expiry time
(none when the key was set without `EX`). -/
structure RedisEntry where
  key : String
  value : String
  expiresAt : Option Nat
deriving Repr, DecidableEq

/-- Global state threaded through the service operations: the `user` table,
the Redis store, the current time in seconds, deterministic supplies for
bcrypt salts and OTP draws, and a flag making the credential store raise a
transient failure. -/
structure SysState where
  users : List User
  nextId : Nat
  redis : List RedisEntry
  now : Nat
  saltCtr : Nat
  otpCtr : Nat
  dbFailing : Bool
  config : AppConfig
deriving Repr, DecidableEq

/-- Model of `AuthService.generateOtp`:
`Math.floor(100000 + Math.random() * 900000).toString()`. The random draw
is modelled as a counter-indexed choice; the result is always a six-digit
numeric string. -/
def genOtp (n : Nat) : String := toString (100000 + n % 900000)

/-- Modelled from the spec: Redis server-side key lookup with time-to-live
semantics (the Redis server itself is external to the repository;
`RedisService.get` in `src/mail/mail.service.ts` delegates to it). A key
whose expiry time has been reached behaves exactly like an absent key. -/
def redisGet (s : SysState) (k : String) : Option String :=
  match s.redis.find? (fun en => en.key == k) with
  | none => none
  | some en =>
    match en.expiresAt with
    | none => some en.value
    | some exp => if s.now < exp then some en.value else none

/-- Modelled from the spec: Redis `SET key value EX ttl` (server side,
external to the repository): last write wins and the expiry is reset. -/
def redisSetEx (s : SysState) (k v : String) (ttl : Nat) : SysState :=
  { s with redis := ⟨k, v, some (s.now + ttl)⟩ :: s.redis.filter (fun en => en.key != k) }

/-- Modelled from the spec: Redis `SET key value` without expiry. -/
def redisSetPlain (s : SysState) (k v : String) : SysState :=
  { s with redis := ⟨k, v, none⟩ :: s.redis.filter (fun en => en.key != k) }

/-- `RedisService.set(key, value, ttl?)` from `src/mail/mail.service.ts`:
`if (ttl)` uses `EX ttl`, otherwise a plain `SET`. JavaScript truthiness
makes both `undefined` and `0` (and `NaN`) fall to the plain branch. -/
def redisServiceSet (s : SysState) (k v : String) (ttl : Option Nat) : SysState :=
  match ttl with
  | some t => if t ≠ 0 then redisSetEx s k v t else redisSetPlain s k v
  | none => redisSetPlain s k v

/-- `RedisService.del(key)`: the key is removed. -/
def redisDel (s : SysState) (k : String) : SysState :=
  { s with redis := s.redis.filter (fun en => en.key != k) }

/-- Pure lookup behind `prisma.user.findUnique({ where: { email } })`. -/
def userByEmail (s : SysState) (e : String) : Option User :=
  s.users.find? (fun u => u.email == e)

/-- Pure lookup behind `prisma.user.findUnique({ where: { id } })`. -/
def userById (s : SysState) (i : Nat) : Option User :=
  s.users.find? (fun u => u.id == i)

/-- `prisma.user.findUnique({ where: { email } })`, raising `StoreError`
when the store connection is failing. -/
def findUserByEmail (s : SysState) (e : String) : Except AuthError (Option User) :=
  if s.dbFailing then .error .StoreError else .ok (userByEmail s e)

/-- `prisma.user.findUnique({ where: { id } })`, raising `StoreError`
when the store connection is failing. -/
def findUserById (s : SysState) (i : Nat) : Except AuthError (Option User) :=
  if s.dbFailing then .error .StoreError else .ok (userById s i)

/-- Fields supplied to `prisma.user.create` by `AuthService.register`. -/
structure UserData where
  email : String
  password : BcryptHash
  firstName : Option String
  lastName : Option String
  role : Role
deriving Repr, DecidableEq

/-- `prisma.user.create`. The Prisma schema (`prisma/schema.prisma`, not
under `src/`) is modelled from the spec: `email` is unique (a duplicate
raises the store's unique-constraint violation), `id` is assigned by the
store, `isVerified` defaults to false and `verifiedAt` to null. -/
def createUser (s : SysState) (d : UserData) : Except AuthError (User × SysState) :=
  if s.dbFailing then .error .StoreError
  else if (userByEmail s d.email).isSome then .error .UniqueViolation
  else
    let u : User :=
      { id := s.nextId, email := d.email, password := d.password,
        firstName := d.firstName, lastName := d.lastName, role := d.role,
        isVerified := false, verifiedAt := none }
    .ok (u, { s with users := s.users ++ [u], nextId := s.nextId + 1 })

/-- `prisma.user.update({ where: { email } }, { isVerified: true,
verifiedAt: new Date() })`. Raises `NotFound` (Prisma P2025) when no row
matches, `StoreError` on a failing connection. -/
def updateUserVerified (s : SysState) (e : String) : Except AuthError SysState :=
  if s.dbFailing then .error .StoreError
  else if (userByEmail s e).isSome then
    .ok { s with users := s.users.map (fun u =>
            if u.email == e then { u with isVerified := true, verifiedAt := some s.now } else u) }
  else .error .NotFound

/-- `prisma.user.update({ where: { email } }, { password: hash })`. -/
def updateUserPassword (s : SysState) (e : String) (h : BcryptHash) : Except AuthError SysState :=
  if s.dbFailing then .error .StoreError
  else if (userByEmail s e).isSome then
    .ok { s with users := s.users.map (fun u =>
            if u.email == e then { u with password := h } else u) }
  else .error .NotFound

/-- Body of `auth/dto` `RegisterDto`. -/
structure RegisterDto where
  email : String
  password : String
  firstName : Option String
  lastName : Option String
deriving Repr, DecidableEq

/-- JWT claims payload built by `AuthService.login`:
`{ sub, email, role, isVerified }` (`iat`/`exp` are folded into the
token's expiry configuration). -/
structure JwtPayload where
  sub : Nat
  email : String
  role : Role
  isVerified : Bool
deriving Repr, DecidableEq

/-- A signed token as produced by `jwtService.sign(payload, opts?)`: the
payload plus the expiry configuration it was signed with. -/
structure Token where
  payload : JwtPayload
  expiresIn : String
deriving Repr, DecidableEq

/-- Public account projection returned by `AuthService.login`. -/
structure PublicUser where
  id : Nat
  email : String
  role : Role
  firstName : Option String
  lastName : Option String
deriving Repr, DecidableEq

/-- Return value of `AuthService.login`. -/
structure LoginResult where
  access_token : Token
  refresh_token : Token
  user : PublicUser
deriving Repr, DecidableEq

/-- The refresh-token input supplied to `AuthService.refreshToken`: either
a token whose signature checks out under the process secret (possibly
expired), or a malformed string. -/
inductive TokenInput
  | wellSigned (payload : JwtPayload) (expired : Bool)
  | malformed
deriving Repr, DecidableEq

/-- `jwtService.verify(token, { secret })` from the `jsonwebtoken` stack:
yields the claims exactly when the signature is valid and the token
unexpired; in every other case the library throws (modelled as `none`,
which the service code turns into the thrown path). -/
def jwtVerify : TokenInput → Option JwtPayload
  | .wellSigned p false => some p
  | .wellSigned _ true => none
  | .malformed => none

deriving instance DecidableEq for Except

/-- Decide whether a service result is a success. -/
def resultOk {α : Type} : Except AuthError α → Bool
  | .ok _ => true
  | .error _ => false

/-- `AuthService.register` after its duplicate pre-check has passed:
hash with a fresh salt, `prisma.user.create`, generate and store the
EMAIL_VERIFICATION code under `verify_email:<email>` with the configured
TTL, fire-and-forget the mail send (failures are logged and swallowed, so
it has no effect on the modelled state), and return the fixed
acknowledgement. -/
def registerRest (s : SysState) (dto : RegisterDto) : Except AuthError String × SysState :=
  let h := bcryptHash dto.password s.saltCtr
  let s1 := { s with saltCtr := s.saltCtr + 1 }
  match createUser s1 ⟨dto.email, h, dto.firstName, dto.lastName, Role.USER⟩ with
  | .error e => (.error e, s1)
  | .ok (u, s2) =>
    let otp := genOtp s2.otpCtr
    let s3 := { s2 with otpCtr := s2.otpCtr + 1 }
    let s4 := redisServiceSet s3 ("verify_email:" ++ u.email) otp (some s3.config.otpExpirySeconds)
    (.ok "User registered. Please check email for OTP.", s4)

/-- `AuthService.register`: duplicate pre-check via
`prisma.user.findUnique`, throwing `BadRequestException("User already
exists")` when a row exists, then the creation body. -/
def register (s : SysState) (dto : RegisterDto) : Except AuthError String × SysState :=
  match findUserByEmail s dto.email with
  | .error e => (.error e, s)
  | .ok (some _) => (.error .Conflict, s)
  | .ok none => registerRest s dto

/-- `AuthService.validateUser(email, pass)`: look the user up by email and
compare the password with `bcrypt.compare`; yields the user on a match and
`none` otherwise. (The TypeScript code strips the `password` field from
the returned object; the projection is left to the callers here, which
never read it back.) -/
def validateUser (s : SysState) (e p : String) : Except AuthError (Option User) × SysState :=
  match findUserByEmail s e with
  | .error err => (.error err, s)
  | .ok none => (.ok none, s)
  | .ok (some u) =>
    if bcryptCompare p u.password then (.ok (some u), s) else (.ok none, s)

/-- `AuthService.login(user)`: reject unverified accounts with
`UnauthorizedException("Email not verified")`; otherwise sign the payload
twice — once with the default expiry and once with
`JWT_REFRESH_EXPIRES_IN` — and return both tokens with the public
projection of the account. -/
def login (s : SysState) (u : User) : Except AuthError LoginResult × SysState :=
  if !u.isVerified then (.error (.Unauthenticated "Email not verified"), s)
  else
    let payload : JwtPayload := ⟨u.id, u.email, u.role, u.isVerified⟩
    (.ok { access_token := ⟨payload, s.config.jwtExpiresIn⟩,
           refresh_token := ⟨payload, s.config.jwtRefreshExpiresIn⟩,
           user := ⟨u.id, u.email, u.role, u.firstName, u.lastName⟩ }, s)

/-- Modelled from the spec: the login pipeline of `POST /auth/login`. The
`LocalAuthGuard` and its passport strategy (`src/auth/guards`,
`src/auth/strategies`) are not under `src/`; per §4.1 the guard runs
`ValidateCredentials` and rejects with `Unauthenticated` when it fails,
after which the controller calls `AuthService.login` with the validated
user. -/
def loginWithCredentials (s : SysState) (e p : String) : Except AuthError LoginResult × SysState :=
  match validateUser s e p with
  | (.error err, s1) => (.error err, s1)
  | (.ok none, s1) => (.error (.Unauthenticated "Unauthorized"), s1)
  | (.ok (some u), s1) => login s1 u

/-- `AuthService.verifyEmail(dto)`: read the stored code under
`verify_email:<email>`; `if (!storedOtp || storedOtp !== dto.otp)` throw
`BadRequestException("Invalid or expired OTP")` (JavaScript truthiness:
an empty stored string also fails); otherwise mark the account verified,
delete the code and acknowledge. -/
def verifyEmail (s : SysState) (e otp : String) : Except AuthError String × SysState :=
  match redisGet s ("verify_email:" ++ e) with
  | none => (.error .InvalidOrExpiredCode, s)
  | some stored =>
    if stored = "" ∨ stored ≠ otp then (.error .InvalidOrExpiredCode, s)
    else
      match updateUserVerified s e with
      | .error err => (.error err, s)
      | .ok s1 => (.ok "Email verified successfully", redisDel s1 ("verify_email:" ++ e))

/-- `AuthService.forgotPassword(dto)`: look the account up; when absent,
return the acknowledgement immediately; when present, generate and store a
PASSWORD_RESET code under `reset_password:<email>` with the configured
TTL, fire-and-forget the mail send, and return the same acknowledgement. -/
def forgotPassword (s : SysState) (e : String) : Except AuthError String × SysState :=
  match findUserByEmail s e with
  | .error err => (.error err, s)
  | .ok none => (.ok "If email exists, OTP sent", s)
  | .ok (some _) =>
    let otp := genOtp s.otpCtr
    let s1 := { s with otpCtr := s.otpCtr + 1 }
    let s2 := redisServiceSet s1 ("reset_password:" ++ e) otp (some s1.config.otpExpirySeconds)
    (.ok "If email exists, OTP sent", s2)

/-- `AuthService.resetPassword(dto)`: read the stored code under
`reset_password:<email>` with the same matching rule as `verifyEmail`;
on a match, hash the new password with a fresh salt, overwrite the
account's password, delete the code and acknowledge. -/
def resetPassword (s : SysState) (e otp newPassword : String) : Except AuthError String × SysState :=
  match redisGet s ("reset_password:" ++ e) with
  | none => (.error .InvalidOrExpiredCode, s)
  | some stored =>
    if stored = "" ∨ stored ≠ otp then (.error .InvalidOrExpiredCode, s)
    else
      let h := bcryptHash newPassword s.saltCtr
      let s1 := { s with saltCtr := s.saltCtr + 1 }
      match updateUserPassword s1 e h with
      | .error err => (.error err, s1)
      | .ok s2 => (.ok "Password reset successfully", redisDel s2 ("reset_password:" ++ e))

/-- Body of the `try` block of `AuthService.refreshToken`: verify the
token, load the account by the embedded `sub`, throw
`UnauthorizedException("User not found")` when it is gone, else run
`login` on the loaded account. -/
def refreshTokenBody (s : SysState) (tok : TokenInput) : Except AuthError LoginResult × SysState :=
  match jwtVerify tok with
  | none => (.error .JwtError, s)
  | some pl =>
    match findUserById s pl.sub with
    | .error err => (.error err, s)
    | .ok none => (.error (.Unauthenticated "User not found"), s)
    | .ok (some u) => login s u

/-- `AuthService.refreshToken(dto)`: the whole body sits in a
`try`/`catch` whose handler rethrows every failure — whatever its kind —
as `UnauthorizedException("Invalid refresh token")`. -/
def refreshToken (s : SysState) (tok : TokenInput) : Except AuthError LoginResult × SysState :=
  match refreshTokenBody s tok with
  | (.ok r, s1) => (.ok r, s1)
  | (.error _, s1) => (.error (.Unauthenticated "Invalid refresh token"), s1)

/-- The account row `AuthService.register` asks the store to create. -/
def freshUser (s : SysState) (dto : RegisterDto) : User :=
  { id := s.nextId, email := dto.email, password := bcryptHash dto.password s.saltCtr,
    firstName := dto.firstName, lastName := dto.lastName, role := .USER,
    isVerified := false, verifiedAt := none }

/-! Concrete states used by witnesses and counterexamples. -/

/-- A sample environment configuration. -/
def cfg0 : AppConfig := { otpExpirySeconds := 300, jwtExpiresIn := "15m", jwtRefreshExpiresIn := "7d" }

/-- A verified sample account. -/
def alice : User :=
  { id := 1, email := "a@x.com", password := bcryptHash "secret1" 0,
    firstName := some "Alice", lastName := none, role := .USER,
    isVerified := true, verifiedAt := some 5 }

/-- An unverified sample account. -/
def bob : User :=
  { id := 2, email := "b@x.com", password := bcryptHash "pw2" 1,
    firstName := none, lastName := none, role := .USER,
    isVerified := false, verifiedAt := none }

/-- A sample state: two accounts, a live EMAIL_VERIFICATION code for the
unverified one and a live PASSWORD_RESET code for the verified one. -/
def baseState : SysState :=
  { users := [alice, bob], nextId := 3,
    redis := [⟨"verify_email:b@x.com", "123456", some 1300⟩,
              ⟨"reset_password:a@x.com", "654321", some 1300⟩],
    now := 1000, saltCtr := 2, otpCtr := 0, dbFailing := false, config := cfg0 }

/-- The sample state with the credential store raising transient failures. -/
def failState : SysState := { baseState with dbFailing := true }

/-- A refresh token for the verified sample account, correctly signed and
unexpired. -/
def tokenAlice : TokenInput := .wellSigned ⟨1, "a@x.com", .USER, true⟩ false

/-- An empty initial state, used for the registration race. -/
def raceS0 : SysState :=
  { users := [], nextId := 1, redis := [], now := 0,
    saltCtr := 0, otpCtr := 0, dbFailing := false, config := cfg0 }

/-- The registration request both racing calls carry. -/
def raceDto : RegisterDto := { email := "c@x.com", password := "secret9", firstName := none, lastName := none }

/-! Helper lemmas about the store models. -/

/-- Filtering a key out of the store makes a lookup for that key fail. -/
theorem find?_filter_ne_none (l : List RedisEntry) (k : String) :
    (l.filter (fun en => en.key != k)).find? (fun en => en.key == k) = none := by
  rw [List.find?_filter]
  apply List.find?_eq_none.2
  intro x _
  simp

/-- A `Get` right after `Delete` on the same key yields nothing. -/
theorem redisGet_del_self (s : SysState) (k : String) :
    redisGet (redisDel s k) k = none := by
  simp only [redisGet, redisDel]
  rw [find?_filter_ne_none]

/-- A `Get` on a deleted key yields nothing at any later time as well. -/
theorem redisGet_del_self_at (s : SysState) (k : String) (n2 : Nat) :
    redisGet { redisDel s k with now := n2 } k = none := by
  simp only [redisGet, redisDel]
  rw [find?_filter_ne_none]

/-- Reading a key at time `n2` after `SET ... EX ttl` was issued at `s.now`
yields the value exactly while `n2` is before the expiry time. -/
theorem redisGet_setEx_at (s : SysState) (k v : String) (t n2 : Nat) :
    redisGet { redisSetEx s k v t with now := n2 } k =
      if n2 < s.now + t then some v else none := by
  simp [redisGet, redisSetEx]

/-- Reading a key back immediately after `SET ... EX ttl` with a positive
`ttl` yields the value. -/
theorem redisGet_setEx_self (s : SysState) (k v : String) (t : Nat) (ht : 0 < t) :
    redisGet (redisSetEx s k v t) k = some v := by
  simp [redisGet, redisSetEx]
  omega

/-! Claim theorems. -/

/-- C9: a one-time code stored through `RedisService.set` with a
configured TTL of `t` seconds is absent from a `Get` issued once more than
`t` seconds have elapsed, exactly as a key that was never set (modelled
here by the key having been deleted). -/
theorem code_ttl_expiry (s : SysState) (k v : String) (t n2 : Nat)
    (ht : 0 < t) (h : s.now + t < n2) :
    redisGet { redisServiceSet s k v (some t) with now := n2 } k = none ∧
    redisGet { redisDel s k with now := n2 } k = none := by
  constructor
  · have hset : redisServiceSet s k v (some t) = redisSetEx s k v t := by
      simp [redisServiceSet]
      omega
    rw [hset, redisGet_setEx_at]
    simp
    omega
  · exact redisGet_del_self_at s k n2

/-- C9 witness: a code stored at time 1000 with TTL 300 is gone at 1301. -/
theorem code_ttl_expiry_witness :
    redisGet { redisServiceSet baseState "k" "v" (some 300) with now := 1301 } "k" = none :=
  (code_ttl_expiry baseState "k" "v" 300 1301 (by decide) (by decide)).1

/-- C5: `forgotPassword` returns the identical acknowledgement for an
email that belongs to an account and one that belongs to none. -/
theorem forgotPassword_uniform_ack (s : SysState) (e1 e2 : String)
    (hdb : s.dbFailing = false)
    (h1 : (userByEmail s e1).isSome = true)
    (h2 : userByEmail s e2 = none) :
    (forgotPassword s e1).1 = (forgotPassword s e2).1 ∧
    (forgotPassword s e1).1 = .ok "If email exists, OTP sent" := by
  obtain ⟨u, hu⟩ := Option.isSome_iff_exists.1 h1
  simp [forgotPassword, findUserByEmail, hdb, hu, h2]

/-- C5 witness: the acknowledgement is the same for the existing account
and for an unknown address. -/
theorem forgotPassword_uniform_ack_witness :
    (forgotPassword baseState "a@x.com").1 = (forgotPassword baseState "nobody@x.com").1 :=
  (forgotPassword_uniform_ack baseState "a@x.com" "nobody@x.com" rfl (by decide) (by decide)).1

/-- C10: when `verifyEmail` or `resetPassword` fails the one-time-code
check, the returned state is exactly the input state — the account table
is untouched and no stored code is deleted or overwritten. -/
theorem failed_code_check_preserves_state :
    (∀ s e c, (verifyEmail s e c).1 = .error .InvalidOrExpiredCode →
      (verifyEmail s e c).2 = s) ∧
    (∀ s e c p, (resetPassword s e c p).1 = .error .InvalidOrExpiredCode →
      (resetPassword s e c p).2 = s) := by
  constructor
  · intro s e c h
    unfold verifyEmail at h ⊢
    cases hg : redisGet s ("verify_email:" ++ e) with
    | none => simp [hg]
    | some stored =>
      simp only [hg] at h ⊢
      by_cases hgate : stored = "" ∨ stored ≠ c
      · simp [hgate]
      · simp only [if_neg hgate] at h ⊢
        cases hupd : updateUserVerified s e with
        | error err => simp [hupd]
        | ok s1 => simp [hupd] at h
  · intro s e c p h
    unfold resetPassword at h ⊢
    cases hg : redisGet s ("reset_password:" ++ e) with
    | none => simp [hg]
    | some stored =>
      simp only [hg] at h ⊢
      by_cases hgate : stored = "" ∨ stored ≠ c
      · simp [hgate]
      · simp only [if_neg hgate] at h ⊢
        cases hupd : updateUserPassword { s with saltCtr := s.saltCtr + 1 } e
            (bcryptHash p s.saltCtr) with
        | error err =>
          simp [hupd] at h
          subst h
          unfold updateUserPassword at hupd
          split at hupd
          · simp at hupd
          · split at hupd
            · simp at hupd
            · simp at hupd
        | ok s1 => simp [hupd] at h

/-- C10 witness: a failing check on the sample state returns it intact. -/
theorem failed_code_check_preserves_state_witness :
    (verifyEmail baseState "b@x.com" "999999").2 = baseState ∧
    (resetPassword baseState "a@x.com" "999999" "npw").2 = baseState :=
  ⟨failed_code_check_preserves_state.1 baseState "b@x.com" "999999" (by decide),
   failed_code_check_preserves_state.2 baseState "a@x.com" "999999" "npw" (by decide)⟩

/-- C1: with a live account for `e` and a store holding only generated
(hence non-empty) codes, `verifyEmail e c` succeeds exactly when the
stored, unexpired, unconsumed EMAIL_VERIFICATION code equals `c`; in every
other case it fails with `InvalidOrExpiredCode`; and a repeat call with
the same code after one success fails with that same error. -/
theorem verifyEmail_code_gate (s : SysState) (e c : String)
    (hdb : s.dbFailing = false)
    (hu : (userByEmail s e).isSome = true)
    (hgen : ∀ v, redisGet s ("verify_email:" ++ e) = some v → v ≠ "") :
    (resultOk (verifyEmail s e c).1 = true ↔
      redisGet s ("verify_email:" ++ e) = some c) ∧
    (redisGet s ("verify_email:" ++ e) ≠ some c →
      (verifyEmail s e c).1 = .error .InvalidOrExpiredCode) ∧
    (resultOk (verifyEmail s e c).1 = true →
      (verifyEmail (verifyEmail s e c).2 e c).1 = .error .InvalidOrExpiredCode) := by
  cases hg : redisGet s ("verify_email:" ++ e) with
  | none =>
    refine ⟨?_, ?_, ?_⟩
    · simp [verifyEmail, hg, resultOk]
    · intro _; simp [verifyEmail, hg]
    · intro hok; simp [verifyEmail, hg, resultOk] at hok
  | some stored =>
    have hne : stored ≠ "" := hgen stored hg
    by_cases hsc : stored = c
    · subst hsc
      have hres : verifyEmail s e stored =
          (.ok "Email verified successfully",
            redisDel { s with users := s.users.map (fun u =>
              if u.email == e then { u with isVerified := true, verifiedAt := some s.now } else u) }
              ("verify_email:" ++ e)) := by
        simp [verifyEmail, hg, hne, updateUserVerified, hdb, hu]
      refine ⟨?_, ?_, ?_⟩
      · simp [hres, resultOk, hg]
      · intro hcontra; exact absurd rfl hcontra
      · intro _
        rw [hres]
        simp [verifyEmail, redisGet_del_self]
    · refine ⟨?_, ?_, ?_⟩
      · simp [verifyEmail, hg, hsc, resultOk]
      · intro _; simp [verifyEmail, hg, hsc]
      · intro hok; simp [verifyEmail, hg, hsc, resultOk] at hok

/-- C1 witness: the stored code for the unverified sample account
verifies once and is consumed. -/
theorem verifyEmail_code_gate_witness :
    resultOk (verifyEmail baseState "b@x.com" "123456").1 = true ∧
    (verifyEmail (verifyEmail baseState "b@x.com" "123456").2 "b@x.com" "123456").1 =
      .error .InvalidOrExpiredCode := by
  have hgen : ∀ v, redisGet baseState ("verify_email:" ++ "b@x.com") = some v → v ≠ "" := by
    intro v hv
    rw [show redisGet baseState ("verify_email:" ++ "b@x.com") = some "123456" from by decide] at hv
    injection hv with h2
    subst h2
    decide
  have hmain := verifyEmail_code_gate baseState "b@x.com" "123456" rfl (by decide) hgen
  have hok : resultOk (verifyEmail baseState "b@x.com" "123456").1 = true :=
    hmain.1.mpr (by decide)
  exact ⟨hok, hmain.2.2 hok⟩

/-- C2: for an account that exists but is unverified, the login pipeline
fails with `Unauthenticated` whatever password is supplied; for a verified
account with the correct password it succeeds, returning an access token
and a refresh token for that account, each carrying its own expiry
configuration. -/
theorem login_requires_verification (s : SysState) (e p : String) (u : User)
    (hdb : s.dbFailing = false) (hu : userByEmail s e = some u) :
    (u.isVerified = false →
      ∃ msg, (loginWithCredentials s e p).1 = .error (.Unauthenticated msg)) ∧
    (u.isVerified = true → bcryptCompare p u.password = true →
      ∃ r, (loginWithCredentials s e p).1 = .ok r ∧
        r.access_token.payload.sub = u.id ∧ r.refresh_token.payload.sub = u.id ∧
        r.access_token.expiresIn = s.config.jwtExpiresIn ∧
        r.refresh_token.expiresIn = s.config.jwtRefreshExpiresIn) := by
  constructor
  · intro hv
    by_cases hcmp : bcryptCompare p u.password = true
    · exact ⟨"Email not verified",
        by simp [loginWithCredentials, validateUser, findUserByEmail, hdb, hu, hcmp, login, hv]⟩
    · exact ⟨"Unauthorized",
        by simp [loginWithCredentials, validateUser, findUserByEmail, hdb, hu, hcmp]⟩
  · intro hv hcmp
    refine ⟨{ access_token := ⟨⟨u.id, u.email, u.role, u.isVerified⟩, s.config.jwtExpiresIn⟩,
              refresh_token := ⟨⟨u.id, u.email, u.role, u.isVerified⟩, s.config.jwtRefreshExpiresIn⟩,
              user := ⟨u.id, u.email, u.role, u.firstName, u.lastName⟩ }, ?_, rfl, rfl, rfl, rfl⟩
    simp [loginWithCredentials, validateUser, findUserByEmail, hdb, hu, hcmp, login, hv]

/-- C2 witness: the unverified sample account is rejected with its correct
password, and the verified one logs in. -/
theorem login_requires_verification_witness :
    (∃ msg, (loginWithCredentials baseState "b@x.com" "pw2").1 = .error (.Unauthenticated msg)) ∧
    (∃ r, (loginWithCredentials baseState "a@x.com" "secret1").1 = .ok r ∧
      r.access_token.payload.sub = alice.id ∧ r.refresh_token.payload.sub = alice.id ∧
      r.access_token.expiresIn = baseState.config.jwtExpiresIn ∧
      r.refresh_token.expiresIn = baseState.config.jwtRefreshExpiresIn) :=
  ⟨(login_requires_verification baseState "b@x.com" "pw2" bob rfl (by decide)).1 rfl,
   (login_requires_verification baseState "a@x.com" "secret1" alice rfl (by decide)).2 rfl rfl⟩

/-- C4: `register` fails with `Conflict` exactly when an account with the
email already exists; otherwise it succeeds with the fixed non-committal
acknowledgement, creates the account with `isVerified = false` and
`role = USER`, and stores a live EMAIL_VERIFICATION one-time code for the
email. -/
theorem register_spec (s : SysState) (dto : RegisterDto)
    (hdb : s.dbFailing = false) (hT : 0 < s.config.otpExpirySeconds) :
    ((register s dto).1 = .error .Conflict ↔ (userByEmail s dto.email).isSome = true) ∧
    (userByEmail s dto.email = none →
      (register s dto).1 = .ok "User registered. Please check email for OTP." ∧
      ∃ u, userByEmail (register s dto).2 dto.email = some u ∧
        u.isVerified = false ∧ u.role = Role.USER ∧
        redisGet (register s dto).2 ("verify_email:" ++ dto.email) = some (genOtp s.otpCtr)) := by
  cases hu : userByEmail s dto.email with
  | some u0 =>
    constructor
    · simp [register, findUserByEmail, hdb, hu]
    · intro hn; simp at hn
  | none =>
    have hu' : s.users.find? (fun v => v.email == dto.email) = none := by
      simpa [userByEmail] using hu
    have hT' : s.config.otpExpirySeconds ≠ 0 := Nat.pos_iff_ne_zero.1 hT
    have hres : register s dto =
        (.ok "User registered. Please check email for OTP.",
          redisSetEx
            { s with saltCtr := s.saltCtr + 1,
                     users := s.users ++ [freshUser s dto],
                     nextId := s.nextId + 1,
                     otpCtr := s.otpCtr + 1 }
            ("verify_email:" ++ dto.email) (genOtp s.otpCtr)
            s.config.otpExpirySeconds) := by
      simp [register, findUserByEmail, hdb, hu, registerRest, createUser, userByEmail, hu',
            redisServiceSet, hT', freshUser]
    refine ⟨?_, ?_⟩
    · rw [hres]; simp
    · intro _
      refine ⟨by rw [hres], freshUser s dto, ?_, rfl, rfl, ?_⟩
      · rw [hres]
        simp [userByEmail, redisSetEx, List.find?_append, hu', freshUser]
      · rw [hres]
        exact redisGet_setEx_self _ _ _ _ hT

/-- C4 witness: registering a new address on the sample state succeeds and
stores a verification code; registering it again conflicts. -/
theorem register_spec_witness :
    (register baseState raceDto).1 = .ok "User registered. Please check email for OTP." ∧
    (register (register baseState raceDto).2 raceDto).1 = .error .Conflict :=
  ⟨((register_spec baseState raceDto rfl (by decide)).2 (by decide)).1,
   (register_spec (register baseState raceDto).2 raceDto (by decide) (by decide)).1.mpr (by decide)⟩

/-- C8: a successful `resetPassword` overwrites the matching account's
password hash with a hash of the new password under a fresh salt, deletes
the consumed reset code, and leaves every other field of every account —
in particular `isVerified` — unchanged. -/
theorem resetPassword_effect (s : SysState) (e c p : String)
    (hdb : s.dbFailing = false)
    (hc : redisGet s ("reset_password:" ++ e) = some c)
    (hne : c ≠ "")
    (hu : (userByEmail s e).isSome = true) :
    (resetPassword s e c p).1 = .ok "Password reset successfully" ∧
    redisGet (resetPassword s e c p).2 ("reset_password:" ++ e) = none ∧
    (resetPassword s e c p).2.users.length = s.users.length ∧
    ∀ i : Fin s.users.length,
      ∃ hi : i.val < (resetPassword s e c p).2.users.length,
        ((resetPassword s e c p).2.users.get ⟨i.val, hi⟩).id = (s.users.get i).id ∧
        ((resetPassword s e c p).2.users.get ⟨i.val, hi⟩).email = (s.users.get i).email ∧
        ((resetPassword s e c p).2.users.get ⟨i.val, hi⟩).role = (s.users.get i).role ∧
        ((resetPassword s e c p).2.users.get ⟨i.val, hi⟩).isVerified = (s.users.get i).isVerified ∧
        ((resetPassword s e c p).2.users.get ⟨i.val, hi⟩).verifiedAt = (s.users.get i).verifiedAt ∧
        ((resetPassword s e c p).2.users.get ⟨i.val, hi⟩).firstName = (s.users.get i).firstName ∧
        ((resetPassword s e c p).2.users.get ⟨i.val, hi⟩).lastName = (s.users.get i).lastName ∧
        ((s.users.get i).email = e →
          ((resetPassword s e c p).2.users.get ⟨i.val, hi⟩).password = bcryptHash p s.saltCtr) ∧
        ((s.users.get i).email ≠ e →
          ((resetPassword s e c p).2.users.get ⟨i.val, hi⟩).password = (s.users.get i).password) := by
  have hu2 : (s.users.find? (fun u => u.email == e)).isSome = true := by
    simpa [userByEmail] using hu
  have hres : resetPassword s e c p =
      (.ok "Password reset successfully",
        redisDel
          { s with saltCtr := s.saltCtr + 1,
                   users := s.users.map (fun u =>
                     if u.email == e then { u with password := bcryptHash p s.saltCtr } else u) }
          ("reset_password:" ++ e)) := by
    simp [resetPassword, hc, hne, updateUserPassword, userByEmail, hu2, hdb]
  have husers : (resetPassword s e c p).2.users = s.users.map (fun u =>
      if u.email == e then { u with password := bcryptHash p s.saltCtr } else u) := by
    rw [hres]
    rfl
  refine ⟨by rw [hres], ?_, ?_, ?_⟩
  · rw [hres]; exact redisGet_del_self _ _
  · rw [husers, List.length_map]
  · intro i
    have hi : i.val < (resetPassword s e c p).2.users.length := by
      rw [husers, List.length_map]; exact i.isLt
    refine ⟨hi, ?_⟩
    have hget : (resetPassword s e c p).2.users.get ⟨i.val, hi⟩ =
        (fun u => if u.email == e then { u with password := bcryptHash p s.saltCtr } else u)
          (s.users.get i) := by
      simp only [List.get_eq_getElem, husers, List.getElem_map]
    rw [hget]
    simp only [List.get_eq_getElem]
    by_cases hmail : s.users[i.val].email = e
    · simp [hmail]
    · simp [hmail]

/-- C8 witness: resetting the verified sample account's password succeeds
and deletes the code. -/
theorem resetPassword_effect_witness :
    (resetPassword baseState "a@x.com" "654321" "npw").1 = .ok "Password reset successfully" ∧
    redisGet (resetPassword baseState "a@x.com" "654321" "npw").2 "reset_password:a@x.com" = none :=
  ⟨(resetPassword_effect baseState "a@x.com" "654321" "npw" rfl (by decide) (by decide) (by decide)).1,
   (resetPassword_effect baseState "a@x.com" "654321" "npw" rfl (by decide) (by decide) (by decide)).2.1⟩

/-- C6: `refreshToken` fails with `Unauthenticated` when the supplied
token does not verify or its subject no longer resolves to an account; on
success the result is exactly a rerun of the `login` flow on the freshly
loaded account, and both returned tokens carry the original token's
subject. -/
theorem refreshToken_spec (s : SysState) (tok : TokenInput)
    (hdb : s.dbFailing = false) :
    (jwtVerify tok = none →
      (refreshToken s tok).1 = .error (.Unauthenticated "Invalid refresh token")) ∧
    (∀ pl, jwtVerify tok = some pl → userById s pl.sub = none →
      (refreshToken s tok).1 = .error (.Unauthenticated "Invalid refresh token")) ∧
    (∀ r, (refreshToken s tok).1 = .ok r →
      ∃ pl u, jwtVerify tok = some pl ∧ userById s pl.sub = some u ∧
        (login s u).1 = .ok r ∧
        r.access_token.payload.sub = pl.sub ∧ r.refresh_token.payload.sub = pl.sub) := by
  refine ⟨?_, ?_, ?_⟩
  · intro h
    simp [refreshToken, refreshTokenBody, h]
  · intro pl h hnone
    simp [refreshToken, refreshTokenBody, h, findUserById, hdb, hnone]
  · intro r h
    cases hj : jwtVerify tok with
    | none => simp [refreshToken, refreshTokenBody, hj] at h
    | some pl =>
      cases hfind : userById s pl.sub with
      | none => simp [refreshToken, refreshTokenBody, hj, findUserById, hdb, hfind] at h
      | some u =>
        have hid : u.id = pl.sub := by
          have h2 := List.find?_some (show List.find? (fun v => v.id == pl.sub) s.users = some u by
            simpa [userById] using hfind)
          simpa using h2
        by_cases hv : u.isVerified
        · have hlogin : login s u =
              (.ok { access_token := ⟨⟨u.id, u.email, u.role, u.isVerified⟩, s.config.jwtExpiresIn⟩,
                     refresh_token := ⟨⟨u.id, u.email, u.role, u.isVerified⟩, s.config.jwtRefreshExpiresIn⟩,
                     user := ⟨u.id, u.email, u.role, u.firstName, u.lastName⟩ }, s) := by
            simp [login, hv]
          have hrt : (refreshToken s tok).1 =
              .ok { access_token := ⟨⟨u.id, u.email, u.role, u.isVerified⟩, s.config.jwtExpiresIn⟩,
                    refresh_token := ⟨⟨u.id, u.email, u.role, u.isVerified⟩, s.config.jwtRefreshExpiresIn⟩,
                    user := ⟨u.id, u.email, u.role, u.firstName, u.lastName⟩ } := by
            simp [refreshToken, refreshTokenBody, hj, findUserById, hdb, hfind, hlogin]
          rw [hrt] at h
          injection h with h3
          refine ⟨pl, u, rfl, hfind, ?_, ?_, ?_⟩
          · rw [hlogin, ← h3]
          · rw [← h3]; exact hid
          · rw [← h3]; exact hid
        · simp [refreshToken, refreshTokenBody, hj, findUserById, hdb, hfind, login, hv] at h

/-- C6 witness: a malformed token is rejected with `Unauthenticated`, and
a valid token for the verified sample account refreshes to a login result
carrying the original subject. -/
theorem refreshToken_spec_witness :
    (refreshToken baseState TokenInput.malformed).1 =
      .error (.Unauthenticated "Invalid refresh token") ∧
    (∃ pl u, jwtVerify tokenAlice = some pl ∧ userById baseState pl.sub = some u ∧
      (login baseState u).1 =
        .ok { access_token := ⟨⟨1, "a@x.com", Role.USER, true⟩, "15m"⟩,
              refresh_token := ⟨⟨1, "a@x.com", Role.USER, true⟩, "7d"⟩,
              user := ⟨1, "a@x.com", Role.USER, some "Alice", none⟩ } ∧
      (1 : Nat) = pl.sub ∧ (1 : Nat) = pl.sub) :=
  ⟨(refreshToken_spec baseState TokenInput.malformed rfl).1 rfl,
   (refreshToken_spec baseState tokenAlice rfl).2.2
     { access_token := ⟨⟨1, "a@x.com", Role.USER, true⟩, "15m"⟩,
       refresh_token := ⟨⟨1, "a@x.com", Role.USER, true⟩, "7d"⟩,
       user := ⟨1, "a@x.com", Role.USER, some "Alice", none⟩ } (by decide)⟩

/-- C3 counterexample: two `register` calls for the same fresh email,
interleaved so that both duplicate pre-checks run against the initial
state before either create. Both pre-checks pass; the first body commits;
the second body then receives the store's unique-constraint violation,
which propagates as `UniqueViolation` — not as `Conflict`. The `Conflict`
failure is produced only by the pre-check inside the service, refuting the
claimed optimistic-create mechanism. -/
theorem register_race_counterexample :
    userByEmail raceS0 raceDto.email = none ∧
    (registerRest raceS0 raceDto).1 = .ok "User registered. Please check email for OTP." ∧
    (registerRest (registerRest raceS0 raceDto).2 raceDto).1 = .error .UniqueViolation ∧
    AuthError.UniqueViolation ≠ AuthError.Conflict := by
  refine ⟨by decide, by decide, by decide, by decide⟩

/-- Helper: the creation body of `register` run against a state that
already holds the email receives the store's unique-constraint violation,
unmapped. -/
theorem registerRest_unique_violation (t : SysState) (dto : RegisterDto)
    (hdb : t.dbFailing = false) (hsome : (userByEmail t dto.email).isSome = true) :
    (registerRest t dto).1 = .error .UniqueViolation := by
  have hsome2 : (t.users.find? (fun v => v.email == dto.email)).isSome = true := by
    simpa [userByEmail] using hsome
  simp [registerRest, createUser, userByEmail, hdb, hsome2]

/-- C3 amended: when both pre-checks pass before either create, exactly
one in-flight `register` body succeeds and the other fails with the
store's `UniqueViolation` propagated unmapped (not `Conflict`); duplicate
emails are otherwise rejected by the pre-check inside the service, which
returns `Conflict` without reaching the store's create. -/
theorem register_duplicate_via_precheck (s : SysState) (dto : RegisterDto)
    (hdb : s.dbFailing = false) (hnone : userByEmail s dto.email = none) :
    resultOk (registerRest s dto).1 = true ∧
    (registerRest (registerRest s dto).2 dto).1 = .error .UniqueViolation ∧
    AuthError.UniqueViolation ≠ AuthError.Conflict ∧
    (∀ s2, s2.dbFailing = false → (userByEmail s2 dto.email).isSome = true →
      register s2 dto = (.error .Conflict, s2)) := by
  have hu' : s.users.find? (fun v => v.email == dto.email) = none := by
    simpa [userByEmail] using hnone
  have hrest : registerRest s dto =
      (.ok "User registered. Please check email for OTP.",
        redisServiceSet
          { s with saltCtr := s.saltCtr + 1,
                   users := s.users ++ [freshUser s dto],
                   nextId := s.nextId + 1,
                   otpCtr := s.otpCtr + 1 }
          ("verify_email:" ++ dto.email) (genOtp s.otpCtr)
          (some s.config.otpExpirySeconds)) := by
    simp [registerRest, createUser, userByEmail, hu', hdb, freshUser]
  refine ⟨by rw [hrest]; rfl, ?_, by decide, ?_⟩
  · have husers2 : (registerRest s dto).2.users = s.users ++ [freshUser s dto] := by
      rw [hrest]
      simp [redisServiceSet, redisSetEx, redisSetPlain]
      split <;> rfl
    have hdb2 : (registerRest s dto).2.dbFailing = false := by
      rw [hrest]
      simp [redisServiceSet, redisSetEx, redisSetPlain, hdb]
      split <;> rfl
    have hfound : (userByEmail (registerRest s dto).2 dto.email).isSome = true := by
      simp [userByEmail, husers2, List.find?_append, hu', freshUser]
    exact registerRest_unique_violation (registerRest s dto).2 dto hdb2 hfound
  · intro s2 hdb2 hsome2
    obtain ⟨u2, hu2⟩ := Option.isSome_iff_exists.1 hsome2
    simp [register, findUserByEmail, hdb2, hu2]

/-- C3 amended witness: the race on the empty initial state. -/
theorem register_duplicate_via_precheck_witness :
    resultOk (registerRest raceS0 raceDto).1 = true ∧
    (registerRest (registerRest raceS0 raceDto).2 raceDto).1 = .error .UniqueViolation :=
  ⟨(register_duplicate_via_precheck raceS0 raceDto rfl (by decide)).1,
   (register_duplicate_via_precheck raceS0 raceDto rfl (by decide)).2.1⟩

/-- C7 counterexample: with the credential store failing transiently, the
lookup inside `refreshToken` raises `StoreError`, but the blanket
`try`/`catch` converts it into the `Unauthenticated` domain failure
instead of letting it propagate. -/
theorem refreshToken_store_error_counterexample :
    failState.dbFailing = true ∧
    findUserById failState 1 = .error .StoreError ∧
    (refreshToken failState tokenAlice).1 = .error (.Unauthenticated "Invalid refresh token") ∧
    (refreshToken failState tokenAlice).1 ≠ .error .StoreError := by
  refine ⟨by decide, by decide, by decide, by decide⟩

/-- C7 amended: a transient store failure propagates as the generic
`StoreError` out of `register`, `forgotPassword`, `validateUser`, and out
of `verifyEmail` and `resetPassword` once their code check has passed; but
`refreshToken`, whose whole body sits in a catch-all, converts the same
failure into the `Unauthenticated` domain error. -/
theorem store_error_propagation (s : SysState) (hdb : s.dbFailing = true) :
    (∀ dto, (register s dto).1 = .error .StoreError) ∧
    (∀ e, (forgotPassword s e).1 = .error .StoreError) ∧
    (∀ e p, (validateUser s e p).1 = .error .StoreError) ∧
    (∀ e c, redisGet s ("verify_email:" ++ e) = some c → c ≠ "" →
      (verifyEmail s e c).1 = .error .StoreError) ∧
    (∀ e c p, redisGet s ("reset_password:" ++ e) = some c → c ≠ "" →
      (resetPassword s e c p).1 = .error .StoreError) ∧
    (∀ tok pl, jwtVerify tok = some pl →
      (refreshToken s tok).1 = .error (.Unauthenticated "Invalid refresh token")) := by
  refine ⟨?_, ?_, ?_, ?_, ?_, ?_⟩
  · intro dto; simp [register, findUserByEmail, hdb]
  · intro e; simp [forgotPassword, findUserByEmail, hdb]
  · intro e p; simp [validateUser, findUserByEmail, hdb]
  · intro e c hc hne
    simp [verifyEmail, hc, hne, updateUserVerified, hdb]
  · intro e c p hc hne
    simp [resetPassword, hc, hne, updateUserPassword, hdb]
  · intro tok pl hj
    simp [refreshToken, refreshTokenBody, hj, findUserById, hdb]

/-- C7 amended witness: the failing sample state. -/
theorem store_error_propagation_witness :
    (register failState raceDto).1 = .error .StoreError ∧
    (refreshToken failState tokenAlice).1 = .error (.Unauthenticated "Invalid refresh token") :=
  ⟨(store_error_propagation failState rfl).1 raceDto,
   (store_error_propagation failState rfl).2.2.2.2.2 tokenAlice ⟨1, "a@x.com", .USER, true⟩ rfl⟩
